import Mathlib

/-!
Verification of the smart-data-monitor-hub backend
(`backend/routes/monitor_api.py`, `backend/app.py`, `backend/models.py`)
against its natural-language specification.

The Python code is shallowly embedded: pure helpers become Lean functions,
third-party effects (the HTTP client `requests.get`, the BeautifulSoup HTML
parser, the database session) become explicit oracles / state passing, and
observable side effects (network requests, body parsing, database lookups)
are recorded in an explicit event trace so that "no call is made" claims are
expressible.
-/

namespace SDMN

/-! ## HTML document model

`extract_text_from_html` hands its input string to BeautifulSoup.  The parser
itself is third-party; we model its output, a parse tree of elements and text
nodes, and treat parsing as an oracle `String → Option NodeList` (`none`
models the parser raising, which the Python code catches, returning `None`).
-/

mutual

inductive Node where
  | text (s : String)
  | elem (tag : String) (children : NodeList)
deriving DecidableEq, Repr

inductive NodeList where
  | nil
  | cons (head : Node) (tail : NodeList)
deriving DecidableEq, Repr

end

/-- The tags removed by `soup(["script", "style"])` + `.extract()` in
`extract_text_from_html`. -/
def scriptStyleTags : List String := ["script", "style"]

mutual

/-- Removal of every element whose tag is in `tags`, as performed by
`for script in soup(["script", "style"]): script.extract()`.  Returns `none`
when the node itself is removed. -/
def removeTagsNode (tags : List String) : Node → Option Node
  | .text s => some (.text s)
  | .elem t cs => if t ∈ tags then none else some (.elem t (removeTagsList tags cs))

/-- List version of `removeTagsNode`. -/
def removeTagsList (tags : List String) : NodeList → NodeList
  | .nil => .nil
  | .cons n ns =>
    match removeTagsNode tags n with
    | none => removeTagsList tags ns
    | some m => .cons m (removeTagsList tags ns)

end

mutual

/-- `soup.get_text()`: concatenation of all text nodes of a node. -/
def getTextNode : Node → String
  | .text s => s
  | .elem _ cs => getTextList cs

/-- `get_text` over a list of sibling nodes. -/
def getTextList : NodeList → String
  | .nil => ""
  | .cons n ns => getTextNode n ++ getTextList ns

end

mutual

/-- Replaces the children of every element whose tag is in `tags` by `repl`,
leaving everything else untouched.  Used to state that the extractor's output
is independent of the content of script/style blocks. -/
def replaceTagContentNode (tags : List String) (repl : NodeList) : Node → Node
  | .text s => .text s
  | .elem t cs =>
    if t ∈ tags then .elem t repl
    else .elem t (replaceTagContentList tags repl cs)

/-- List version of `replaceTagContentNode`. -/
def replaceTagContentList (tags : List String) (repl : NodeList) : NodeList → NodeList
  | .nil => .nil
  | .cons n ns => .cons (replaceTagContentNode tags repl n) (replaceTagContentList tags repl ns)

end

/-- `str.strip()`: drop leading and trailing whitespace. -/
def stripChars (l : List Char) : List Char :=
  ((l.dropWhile Char.isWhitespace).reverse.dropWhile Char.isWhitespace).reverse

/-- `text.splitlines()`, modelled on the newline character (the only line
separator the embedding's documents contain). -/
def splitLinesChars : List Char → List (List Char)
  | [] => [[]]
  | '\n' :: rest => [] :: splitLinesChars rest
  | c :: rest =>
    match splitLinesChars rest with
    | [] => [[c]]
    | g :: gs => (c :: g) :: gs

/-- `line.split("  ")`: split on each occurrence of two consecutive spaces,
leftmost first. -/
def splitTwoSpaces : List Char → List (List Char)
  | [] => [[]]
  | ' ' :: ' ' :: rest => [] :: splitTwoSpaces rest
  | c :: rest =>
    match splitTwoSpaces rest with
    | [] => [[c]]
    | g :: gs => (c :: g) :: gs

/-- `'\n'.join(...)`. -/
def joinLines : List (List Char) → List Char
  | [] => []
  | [l] => l
  | l :: ls => l ++ '\n' :: joinLines ls

/-- The whitespace clean-up in `extract_text_from_html`:
`lines = (line.strip() for line in text.splitlines())`,
`chunks = (phrase.strip() for line in lines for phrase in line.split("  "))`,
`text = '\n'.join(chunk for chunk in chunks if chunk)`. -/
def cleanText (text : String) : String :=
  let lines := (splitLinesChars text.data).map stripChars
  let chunks := (lines.map (fun line => (splitTwoSpaces line).map stripChars)).flatten
  ⟨joinLines (chunks.filter (fun c => !c.isEmpty))⟩

/-- `extract_text_from_html(html_content)`: returns `None` for empty/absent
input, hands the string to the parser (`none` = the parser raised, caught by
the `except` clause), removes script/style elements, collects the text and
cleans whitespace. -/
def extract_text_from_html (parse : String → Option NodeList)
    (html_content : Option String) : Option String :=
  match html_content with
  | none => none
  | some h =>
    if h = "" then none
    else
      match parse h with
      | none => none
      | some soup => some (cleanText (getTextList (removeTagsList scriptStyleTags soup)))

/-! ## Fetcher -/

/-- Outcome of one `requests.get(url)` call: either a response with a status
code and a body, or a transport-level `RequestException`. -/
inductive HttpOutcome where
  | resp (status : Nat) (body : String)
  | exn
deriving DecidableEq, Repr

/-- Observable side effects of the handlers, recorded as an explicit trace. -/
inductive Event where
  | fetchEv (url : String)
  | extractEv
  | parseBodyEv
  | lookupMonitorEv (monitorId : Nat)
deriving DecidableEq, Repr

/-- `response.raise_for_status()` raises `HTTPError` exactly for
4xx and 5xx status codes. -/
def raiseForStatusRaises (status : Nat) : Bool :=
  400 ≤ status && status < 600

/-- `fetch_data_from_url(url)`: one blocking GET; returns `response.text` when
`raise_for_status` does not raise, `None` when it raises or the transport
raises a `RequestException`.  The trace records the single GET performed. -/
def fetch_data_from_url (http : String → HttpOutcome) (url : String) :
    Option String × List Event :=
  (match http url with
   | .resp status body => if raiseForStatusRaises status then none else some body
   | .exn => none,
   [.fetchEv url])

/-! ## Data model (`backend/models.py`) -/

/-- The persisted `Monitor` row.  Timestamps are abstract (`Nat`);
`last_run` is nullable (`Option Nat`). -/
structure Monitor where
  id : Nat
  user_id : Nat
  name : String
  data_source_url : String
  analysis_type : String
  creation_date : Nat
  last_run : Option Nat
  is_active : Bool
deriving DecidableEq, Repr

/-! ## Monitor Processor (`process_monitor_data`)

The same function appears verbatim in `backend/app.py` and
`backend/routes/monitor_api.py`; one embedding covers both. -/

/-- `process_monitor_data(monitor)`: guard on a present monitor with a
non-empty `data_source_url`, fetch, and — only when `analysis_type` is
`'sentiment'` or `'keywords'` — extract text from the fetched HTML
(a `None` extraction is a failure); for every other `analysis_type` the raw
fetched content is passed through unchanged.  The trace records the fetch
and whether the extractor was invoked. -/
def process_monitor_data (http : String → HttpOutcome)
    (parse : String → Option NodeList) (monitor : Option Monitor) :
    Option String × List Event :=
  match monitor with
  | none => (none, [])
  | some m =>
    if m.data_source_url = "" then (none, [])
    else
      let fr := fetch_data_from_url http m.data_source_url
      match fr.1 with
      | none => (none, fr.2)
      | some raw_data =>
        if m.analysis_type ∈ ["sentiment", "keywords"] then
          match extract_text_from_html parse (some raw_data) with
          | none => (none, fr.2 ++ [.extractEv])
          | some processed_data => (some processed_data, fr.2 ++ [.extractEv])
        else
          (some raw_data, fr.2)

/-! ## Trigger endpoint (`trigger_monitor_processing`) -/

/-- The parsed JSON body of a trigger request: `monitor_id` present or not
(`none` also covers a body that parses but lacks the key). -/
structure TriggerBody where
  monitor_id : Option Nat
deriving DecidableEq, Repr

/-- A trigger request: the `X-API-KEY` header (absent = `none`) and the JSON
body (`none` = absent / unparsable / empty, i.e. falsy `request.get_json()`). -/
structure TriggerRequest where
  api_key_header : Option String
  body : Option TriggerBody
deriving DecidableEq, Repr

/-- The JSON responses of the trigger endpoint. -/
inductive TriggerResponse where
  | unauthorized
  | missingMonitorId
  | monitorNotFound (monitorId : Nat)
  | processingFailed (monitorId : Nat)
  | processedOk (monitorId : Nat) (processed_data : String)
deriving DecidableEq, Repr

/-- HTTP status code attached to each trigger response. -/
def TriggerResponse.statusCode : TriggerResponse → Nat
  | .unauthorized => 401
  | .missingMonitorId => 400
  | .monitorNotFound _ => 404
  | .processingFailed _ => 500
  | .processedOk _ _ => 200

/-- Whether a trigger response is an error body (`{"error": ...}`). -/
def TriggerResponse.isError : TriggerResponse → Bool
  | .processedOk _ _ => false
  | _ => true

/-- `trigger_monitor_processing()`: first the `X-API-KEY` header is compared
with `os.getenv('N8N_API_KEY')` (`expected_api_key`; `none` = unset env var) —
a missing or falsy header, or one different from the expected key, yields 401
before anything else happens.  Only then is the body parsed, the monitor
looked up by id alone (`Monitor.query.get`, no ownership check), and
`process_monitor_data` run; a `None` processing result is reported as a 500
failure, otherwise the processed data is returned with 200. -/
def trigger_monitor_processing (expected_api_key : Option String)
    (http : String → HttpOutcome) (parse : String → Option NodeList)
    (database : List Monitor) (req : TriggerRequest) :
    TriggerResponse × List Event :=
  match req.api_key_header with
  | none => (.unauthorized, [])
  | some key =>
    if key = "" then (.unauthorized, [])
    else if some key ≠ expected_api_key then (.unauthorized, [])
    else
      match req.body with
      | none => (.missingMonitorId, [.parseBodyEv])
      | some body =>
        match body.monitor_id with
        | none => (.missingMonitorId, [.parseBodyEv])
        | some mid =>
          match database.find? (fun m => m.id == mid) with
          | none => (.monitorNotFound mid, [.parseBodyEv, .lookupMonitorEv mid])
          | some monitor =>
            match process_monitor_data http parse (some monitor) with
            | (none, tr) =>
              (.processingFailed mid, [.parseBodyEv, .lookupMonitorEv mid] ++ tr)
            | (some d, tr) =>
              (.processedOk mid d, [.parseBodyEv, .lookupMonitorEv mid] ++ tr)

/-! ## Single-monitor CRUD (`manage_single_monitor`) -/

/-- A JSON value supplied for `is_active`: a boolean, or anything else
(which the handler rejects with 400). -/
inductive JsonBoolField where
  | jbool (b : Bool)
  | jnonbool
deriving DecidableEq, Repr

/-- The (partial) JSON body of a PUT request: each updatable field may be
present or absent. -/
structure PutData where
  name : Option String
  data_source_url : Option String
  analysis_type : Option String
  is_active : Option JsonBoolField
deriving DecidableEq, Repr

/-- The field assignments the PUT handler performs before it looks at
`is_active`: `name`, `data_source_url` and `analysis_type` are written onto
the session's monitor object whenever the key is present in the body. -/
def assign_updatable_fields (monitor : Monitor) (data : PutData) : Monitor :=
  let m1 := match data.name with
    | some n => { monitor with name := n }
    | none => monitor
  let m2 := match data.data_source_url with
    | some u => { m1 with data_source_url := u }
    | none => m1
  match data.analysis_type with
  | some t => { m2 with analysis_type := t }
  | none => m2

/-- Result of running the PUT handler's field-update section on the session's
monitor object.  `invalidIsActive` carries the session object exactly as the
handler leaves it when it returns the 400 response (the preceding assignments
are kept; the handler performs no rollback on this path). -/
inductive PutFieldsResult where
  | updated (m : Monitor)
  | invalidIsActive (sessionMonitor : Monitor)
deriving DecidableEq, Repr

/-- The field-update section of the PUT branch of `manage_single_monitor`:
assign `name` / `data_source_url` / `analysis_type` when present, then check
`is_active` — a boolean is assigned, a non-boolean makes the handler return
400 immediately, with the earlier assignments still applied to the session
object. -/
def apply_put_fields (monitor : Monitor) (data : PutData) : PutFieldsResult :=
  let m3 := assign_updatable_fields monitor data
  match data.is_active with
  | none => .updated m3
  | some (.jbool b) => .updated { m3 with is_active := b }
  | some .jnonbool => .invalidIsActive m3

/-- Request method (with body) for `/api/monitors/<id>`. -/
inductive Method where
  | get
  | put (data : Option PutData)
  | delete
deriving DecidableEq, Repr

/-- The JSON responses of `manage_single_monitor`. -/
inductive SingleMonitorResponse where
  | notFound
  | monitorJson (m : Monitor)
  | noUpdateData
  | invalidIsActive
  | deleted (monitorId : Nat)
deriving DecidableEq, Repr

/-- HTTP status code attached to each single-monitor response. -/
def SingleMonitorResponse.statusCode : SingleMonitorResponse → Nat
  | .notFound => 404
  | .monitorJson _ => 200
  | .noUpdateData => 400
  | .invalidIsActive => 400
  | .deleted _ => 200

/-- `manage_single_monitor(monitor_id)`: the monitor is looked up by
`filter_by(id=monitor_id, user_id=current_user.id)` — absent or not owned by
the caller yields 404 with the database untouched.  GET returns the row, PUT
updates it through `apply_put_fields` (committing only on success), DELETE
removes it.  Returns the database after the request and the response. -/
def manage_single_monitor (database : List Monitor) (currentUserId monitorId : Nat)
    (method : Method) : List Monitor × SingleMonitorResponse :=
  match database.find? (fun m => m.id == monitorId && m.user_id == currentUserId) with
  | none => (database, .notFound)
  | some monitor =>
    match method with
    | .get => (database, .monitorJson monitor)
    | .put none => (database, .noUpdateData)
    | .put (some data) =>
      match apply_put_fields monitor data with
      | .updated m2 =>
        (database.map (fun x =>
           if x.id == monitorId && x.user_id == currentUserId then m2 else x),
         .monitorJson m2)
      | .invalidIsActive _ =>
        -- the 400 return: no commit, so the store is unchanged
        (database, .invalidIsActive)
    | .delete =>
      (database.filter (fun m => !(m.id == monitorId && m.user_id == currentUserId)),
       .deleted monitorId)

/-! ## Creation (`manage_monitors`, POST branch) and the operation semantics -/

/-- The JSON body of a POST `/api/monitors` request (all three fields are
required to be truthy by the handler). -/
structure CreateData where
  name : String
  data_source_url : String
  analysis_type : String
deriving DecidableEq, Repr

/-- The POST branch of `manage_monitors`: validates the three required fields,
then inserts a new Monitor owned by the caller.  Per `backend/models.py`,
`creation_date` defaults to the current time, `is_active` to `True`, and
`last_run` has no default, so a fresh row carries `NULL` (`none`).  A
duplicate primary key is an `IntegrityError`: the session is rolled back and
the store left unchanged. -/
def create_monitor (database : List Monitor) (currentUserId newId now : Nat)
    (data : Option CreateData) : List Monitor × Bool :=
  match data with
  | none => (database, false)
  | some d =>
    if d.name = "" ∨ d.data_source_url = "" ∨ d.analysis_type = "" then
      (database, false)
    else if database.any (fun m => m.id == newId) then
      (database, false)
    else
      (database ++ [{ id := newId, user_id := currentUserId, name := d.name,
                      data_source_url := d.data_source_url,
                      analysis_type := d.analysis_type,
                      creation_date := now, last_run := none, is_active := true }],
       true)

/-- One request against the monitor API, for reasoning about request
sequences. -/
inductive Op where
  | create (userId newId now : Nat) (data : Option CreateData)
  | readSingle (userId monitorId : Nat)
  | updateSingle (userId monitorId : Nat) (data : Option PutData)
  | deleteSingle (userId monitorId : Nat)
  | listMonitors (userId : Nat)
  | triggerOp (expected_api_key : Option String) (req : TriggerRequest)
deriving Repr

/-- Effect of one request on the persisted monitor store.  The trigger
handler runs `trigger_monitor_processing`, which contains no `session.add`,
`session.delete` or field assignment, so the store it leaves behind is the
store it was given. -/
def applyOp (http : String → HttpOutcome) (parse : String → Option NodeList)
    (database : List Monitor) : Op → List Monitor
  | .create uid nid now d => (create_monitor database uid nid now d).1
  | .readSingle uid mid => (manage_single_monitor database uid mid .get).1
  | .updateSingle uid mid d => (manage_single_monitor database uid mid (.put d)).1
  | .deleteSingle uid mid => (manage_single_monitor database uid mid .delete).1
  | .listMonitors _ => database
  | .triggerOp key req =>
    let _result := trigger_monitor_processing key http parse database req
    database

/-- The store after a sequence of requests. -/
def runOps (http : String → HttpOutcome) (parse : String → Option NodeList)
    (database : List Monitor) (ops : List Op) : List Monitor :=
  ops.foldl (applyOp http parse) database

/-! ## Spec-side definitions

Used only to state claims whose wording the code does not follow. -/

/-- Whether the first list is an initial segment of the second. -/
def startsWithChars : List Char → List Char → Bool
  | [], _ => true
  | _ :: _, [] => false
  | c :: cs, d :: ds => c == d && startsWithChars cs ds

/-- Modelled from the spec: "the source looks like a web page (URL scheme
indicates HTTP(S))". -/
def url_scheme_is_http (url : String) : Bool :=
  startsWithChars "http://".data url.data || startsWithChars "https://".data url.data

/-- Modelled from the spec: "succeeds with a 2xx status". -/
def statusIs2xx (status : Nat) : Bool :=
  200 ≤ status && status < 300

/-! ## Helper lemmas -/

/-- The fetcher's trace is always the single GET it performs. -/
theorem fetch_data_from_url_trace (http : String → HttpOutcome) (url : String) :
    (fetch_data_from_url http url).2 = [.fetchEv url] := rfl

mutual

/-- Changing the children of script/style elements does not change the result
of removing those elements (node version). -/
theorem removeTagsNode_replaceTagContentNode (tags : List String) (repl : NodeList)
    (n : Node) :
    removeTagsNode tags (replaceTagContentNode tags repl n) = removeTagsNode tags n := by
  cases n with
  | text s => rfl
  | elem t cs =>
    by_cases ht : t ∈ tags
    · simp [replaceTagContentNode, removeTagsNode, ht]
    · simp [replaceTagContentNode, removeTagsNode, ht,
        removeTagsList_replaceTagContentList tags repl cs]

/-- Changing the children of script/style elements does not change the result
of removing those elements (list version). -/
theorem removeTagsList_replaceTagContentList (tags : List String) (repl : NodeList)
    (ns : NodeList) :
    removeTagsList tags (replaceTagContentList tags repl ns) = removeTagsList tags ns := by
  cases ns with
  | nil => rfl
  | cons n ns2 =>
    simp only [replaceTagContentList, removeTagsList,
      removeTagsNode_replaceTagContentNode tags repl n,
      removeTagsList_replaceTagContentList tags repl ns2]

end

/-- `assign_updatable_fields` never touches `last_run`. -/
theorem assign_updatable_fields_last_run (m : Monitor) (d : PutData) :
    (assign_updatable_fields m d).last_run = m.last_run := by
  unfold assign_updatable_fields
  cases d.name <;> cases d.data_source_url <;> cases d.analysis_type <;> rfl

/-- A successful PUT field update never touches `last_run`. -/
theorem apply_put_fields_last_run (m : Monitor) (d : PutData) (m2 : Monitor)
    (h : apply_put_fields m d = .updated m2) : m2.last_run = m.last_run := by
  unfold apply_put_fields at h
  cases hia : d.is_active with
  | none =>
    rw [hia] at h
    cases h
    exact assign_updatable_fields_last_run m d
  | some v =>
    cases v with
    | jbool b =>
      rw [hia] at h
      cases h
      exact assign_updatable_fields_last_run m d
    | jnonbool =>
      rw [hia] at h
      cases h

/-- When the monitor has a non-empty URL, the fetch succeeds, and the
analysis type is neither `'sentiment'` nor `'keywords'`, the processor passes
the raw content through unchanged and never invokes the extractor. -/
theorem process_monitor_data_passthrough (http : String → HttpOutcome)
    (parse : String → Option NodeList) (m : Monitor) (raw : String)
    (hurl : ¬ m.data_source_url = "")
    (htype : m.analysis_type ∉ (["sentiment", "keywords"] : List String))
    (hfetch : (fetch_data_from_url http m.data_source_url).1 = some raw) :
    process_monitor_data http parse (some m) =
      (some raw, [.fetchEv m.data_source_url]) := by
  simp only [process_monitor_data, if_neg hurl, hfetch, fetch_data_from_url_trace]
  rw [if_neg htype]

/-- When the monitor has a non-empty URL, the fetch succeeds, and the
analysis type is `'sentiment'` or `'keywords'`, the processor returns exactly
the extractor's verdict on the raw content. -/
theorem process_monitor_data_extracts (http : String → HttpOutcome)
    (parse : String → Option NodeList) (m : Monitor) (raw : String)
    (hurl : ¬ m.data_source_url = "")
    (htype : m.analysis_type ∈ (["sentiment", "keywords"] : List String))
    (hfetch : (fetch_data_from_url http m.data_source_url).1 = some raw) :
    process_monitor_data http parse (some m) =
      (extract_text_from_html parse (some raw),
       [.fetchEv m.data_source_url, .extractEv]) := by
  simp only [process_monitor_data, if_neg hurl, hfetch, fetch_data_from_url_trace]
  rw [if_pos htype]
  cases hext : extract_text_from_html parse (some raw) <;> simp [hext]

/-- An authorized, well-formed trigger request reduces to the processor's
verdict on the monitor found by id. -/
theorem trigger_monitor_processing_auth_ok (expected_api_key : Option String)
    (key : String) (http : String → HttpOutcome) (parse : String → Option NodeList)
    (database : List Monitor) (mid : Nat) (m : Monitor)
    (hkey1 : ¬ key = "") (hkey2 : some key = expected_api_key)
    (hfind : database.find? (fun x => x.id == mid) = some m) :
    trigger_monitor_processing expected_api_key http parse database
        { api_key_header := some key, body := some { monitor_id := some mid } } =
      (match process_monitor_data http parse (some m) with
       | (none, tr) => (.processingFailed mid, [.parseBodyEv, .lookupMonitorEv mid] ++ tr)
       | (some d, tr) => (.processedOk mid d, [.parseBodyEv, .lookupMonitorEv mid] ++ tr)) := by
  simp only [trigger_monitor_processing, if_neg hkey1, hkey2, hfind]
  simp

/-! ## Claims -/

/-- C4: for every monitor whose `data_source_url` is empty, and for a missing
monitor object, `process_monitor_data` returns the failure value `None` and
performs no fetch at all — the event trace is empty, so no network request is
attempted, whatever the HTTP transport would have answered. -/
theorem claim4_missing_config_no_fetch (http : String → HttpOutcome)
    (parse : String → Option NodeList) (monitor : Option Monitor)
    (h : monitor = none ∨ ∀ m, monitor = some m → m.data_source_url = "") :
    process_monitor_data http parse monitor = (none, []) := by
  cases monitor with
  | none => rfl
  | some m =>
    have hurl : m.data_source_url = "" := by
      cases h with
      | inl h0 => simp at h0
      | inr h1 => exact h1 m rfl
    simp [process_monitor_data, hurl]

/-- Monitor with an empty `data_source_url`, for the C4 witness. -/
def monNoUrl : Monitor :=
  { id := 3, user_id := 1, name := "broken", data_source_url := "",
    analysis_type := "sentiment", creation_date := 0, last_run := none,
    is_active := true }

/-- C4 witness: a concrete monitor with an empty URL fails with no fetch. -/
theorem claim4_missing_config_no_fetch_witness :
    process_monitor_data (fun _ => .resp 200 "body") (fun _ => none) (some monNoUrl) =
      (none, []) :=
  claim4_missing_config_no_fetch (fun _ => .resp 200 "body") (fun _ => none)
    (some monNoUrl) (Or.inr (fun m hm => by cases hm; rfl))

/-- C5: a trigger request whose `X-API-KEY` header is missing or differs from
the configured secret is answered with the 401 error body, whatever the
request body and the database contain, and its event trace is empty: the
body is not parsed and no monitor is looked up. -/
theorem claim5_trigger_unauthorized (expected_api_key : Option String)
    (http : String → HttpOutcome) (parse : String → Option NodeList)
    (database : List Monitor) (req : TriggerRequest)
    (h : req.api_key_header = none ∨ req.api_key_header ≠ expected_api_key) :
    trigger_monitor_processing expected_api_key http parse database req =
      (.unauthorized, []) ∧
    TriggerResponse.unauthorized.statusCode = 401 ∧
    TriggerResponse.unauthorized.isError = true := by
  refine ⟨?_, rfl, rfl⟩
  cases hk : req.api_key_header with
  | none => simp [trigger_monitor_processing, hk]
  | some key =>
    have hne : some key ≠ expected_api_key := by
      cases h with
      | inl h0 => rw [hk] at h0; cases h0
      | inr h1 => rw [hk] at h1; exact h1
    by_cases hkey : key = ""
    · simp [trigger_monitor_processing, hk, hkey]
    · simp [trigger_monitor_processing, hk, hkey, hne]

/-- C5 witness: a concrete request with a wrong key against a configured
secret is rejected with an empty trace. -/
theorem claim5_trigger_unauthorized_witness :
    trigger_monitor_processing (some "secret") (fun _ => .resp 200 "body")
        (fun _ => none) []
        { api_key_header := some "wrong", body := some { monitor_id := some 1 } } =
      (.unauthorized, []) :=
  (claim5_trigger_unauthorized (some "secret") (fun _ => .resp 200 "body")
    (fun _ => none) []
    { api_key_header := some "wrong", body := some { monitor_id := some 1 } }
    (Or.inr (by decide))).1

/-- C6 counterexample: the claim says the body is returned *exactly* for 2xx
statuses, but `raise_for_status` raises only for 4xx/5xx, so a 304 response
(not 2xx) still has its body returned as success. -/
theorem claim6_counterexample :
    (fetch_data_from_url (fun _ => .resp 304 "cachedbody") "http://u").1 =
      some "cachedbody" ∧
    statusIs2xx 304 = false := ⟨rfl, rfl⟩

/-- C6 (amended): `fetch_data_from_url` performs exactly one GET (the trace is
the single fetch event); it returns the response body exactly when a response
was received whose status does not make `raise_for_status` raise — i.e. any
status outside 400..599; every 4xx/5xx status and every transport exception
yields the failure value `None` (nothing is raised to the caller). -/
theorem claim6_fetch_behaviour (http : String → HttpOutcome) (url : String) :
    (fetch_data_from_url http url).2 = [.fetchEv url] ∧
    ((fetch_data_from_url http url).1.isSome ↔
       ∃ status body, http url = .resp status body ∧
         raiseForStatusRaises status = false) ∧
    (∀ status body, http url = .resp status body →
       raiseForStatusRaises status = false →
       (fetch_data_from_url http url).1 = some body) ∧
    (∀ status body, http url = .resp status body →
       raiseForStatusRaises status = true →
       (fetch_data_from_url http url).1 = none) ∧
    (http url = .exn → (fetch_data_from_url http url).1 = none) ∧
    (∀ status, raiseForStatusRaises status = true ↔ 400 ≤ status ∧ status < 600) := by
  refine ⟨rfl, ?_, ?_, ?_, ?_, ?_⟩
  · cases hres : http url with
    | exn => simp [fetch_data_from_url, hres]
    | resp s b =>
      cases hr : raiseForStatusRaises s <;>
        simp [fetch_data_from_url, hres, hr]
  · intro s b hres hr
    simp [fetch_data_from_url, hres, hr]
  · intro s b hres hr
    simp [fetch_data_from_url, hres, hr]
  · intro hres
    simp [fetch_data_from_url, hres]
  · intro s
    simp [raiseForStatusRaises]

/-- C6 witness: a 200 response returns its body. -/
theorem claim6_fetch_behaviour_witness :
    (fetch_data_from_url (fun _ => .resp 200 "hello") "u").1 = some "hello" :=
  (claim6_fetch_behaviour (fun _ => .resp 200 "hello") "u").2.2.1 200 "hello" rfl rfl

/-- C7: when every monitor in the store with the requested id belongs to a
user other than the caller, GET, PUT and DELETE all answer the 404 not-found
body (not 403) and leave the store exactly as it was: the other user's
monitor is neither read back, modified, nor deleted. -/
theorem claim7_foreign_monitor_not_found (database : List Monitor)
    (userA monitorId : Nat)
    (h : ∀ m ∈ database, m.id = monitorId → m.user_id ≠ userA) :
    (∀ method, manage_single_monitor database userA monitorId method =
       (database, .notFound)) ∧
    SingleMonitorResponse.notFound.statusCode = 404 ∧
    SingleMonitorResponse.notFound.statusCode ≠ 403 := by
  have hfind : database.find? (fun m => m.id == monitorId && m.user_id == userA) =
      none := by
    rw [List.find?_eq_none]
    intro m hm
    simp only [Bool.and_eq_true, beq_iff_eq, not_and]
    intro hid
    exact fun huser => h m hm hid huser
  exact ⟨fun method => by simp [manage_single_monitor, hfind], rfl, by decide⟩

/-- Monitor owned by user 2, for the C7 witness. -/
def monOfUser2 : Monitor :=
  { id := 5, user_id := 2, name := "theirs", data_source_url := "https://b.example",
    analysis_type := "keywords", creation_date := 0, last_run := none,
    is_active := true }

/-- C7 witness: user 1 deleting user 2's monitor gets 404 and the store is
untouched. -/
theorem claim7_foreign_monitor_not_found_witness :
    manage_single_monitor [monOfUser2] 1 5 .delete = ([monOfUser2], .notFound) :=
  (claim7_foreign_monitor_not_found [monOfUser2] 1 5
    (fun m hm hid => by
      rcases List.mem_singleton.mp hm with rfl
      decide)).1 .delete

/-- C10: a PUT whose body carries a non-boolean `is_active` together with
other updatable fields is answered 400 only after `name`, `data_source_url`
and `analysis_type` have already been assigned onto the session's monitor
object, and the error return performs no rollback: the session object keeps
the new values (the update is not atomic at the session-object level), while
the uncommitted store is left unchanged. -/
theorem claim10_put_nonbool_is_active (database : List Monitor)
    (userId monitorId : Nat) (monitor : Monitor) (data : PutData)
    (hfind : database.find? (fun m => m.id == monitorId && m.user_id == userId) =
       some monitor)
    (hbad : data.is_active = some .jnonbool) :
    apply_put_fields monitor data =
      .invalidIsActive (assign_updatable_fields monitor data) ∧
    (∀ n, data.name = some n → (assign_updatable_fields monitor data).name = n) ∧
    (∀ u, data.data_source_url = some u →
       (assign_updatable_fields monitor data).data_source_url = u) ∧
    (∀ t, data.analysis_type = some t →
       (assign_updatable_fields monitor data).analysis_type = t) ∧
    manage_single_monitor database userId monitorId (.put (some data)) =
      (database, .invalidIsActive) ∧
    SingleMonitorResponse.invalidIsActive.statusCode = 400 := by
  have happ : apply_put_fields monitor data =
      .invalidIsActive (assign_updatable_fields monitor data) := by
    simp [apply_put_fields, hbad]
  refine ⟨happ, ?_, ?_, ?_, ?_, rfl⟩
  · intro n hn
    cases hdu : data.data_source_url <;> cases hat : data.analysis_type <;>
      simp [assign_updatable_fields, hn, hdu, hat]
  · intro u hu
    cases hat : data.analysis_type <;> cases hnm : data.name <;>
      simp [assign_updatable_fields, hu, hat, hnm]
  · intro t ht
    simp [assign_updatable_fields, ht]
  · simp [manage_single_monitor, hfind, happ]

/-- Monitor owned by user 1, for the C10 witness. -/
def monOfUser1 : Monitor :=
  { id := 5, user_id := 1, name := "mine", data_source_url := "https://a.example",
    analysis_type := "sentiment", creation_date := 0, last_run := none,
    is_active := true }

/-- PUT body with a new name and a non-boolean `is_active`, for the C10
witness. -/
def putDataBadIsActive : PutData :=
  { name := some "newname", data_source_url := none, analysis_type := none,
    is_active := some .jnonbool }

/-- C10 witness: the rejected update has already renamed the session object. -/
theorem claim10_put_nonbool_is_active_witness :
    (assign_updatable_fields monOfUser1 putDataBadIsActive).name = "newname" :=
  (claim10_put_nonbool_is_active [monOfUser1] 1 5 monOfUser1 putDataBadIsActive
    rfl rfl).2.1 "newname" rfl

/-- Parse tree of `"<script>SECRET</script>pagetext"`: a script block followed
by visible text.  Used against C1. -/
def docScriptThenText : NodeList :=
  .cons (.elem "script" (.cons (.text "SECRET") .nil)) (.cons (.text "pagetext") .nil)

/-- A monitor with an HTTPS data source but an analysis type outside
`{'sentiment','keywords'}`.  Used against C1. -/
def monHttpsRss : Monitor :=
  { id := 1, user_id := 7, name := "Feed watch", data_source_url := "https://example.com",
    analysis_type := "rss", creation_date := 0, last_run := none, is_active := true }

/-- C1 counterexample: the monitor's URL scheme is HTTPS, yet the processor
never invokes the Text Extractor (no extraction event in the trace) and hands
the raw fetched content — script block included — straight through; the
extractor, had it been invoked as the claim requires, would have returned
just `"pagetext"`.  The Fetched→Extracted decision is made by
`analysis_type`, not by the URL scheme. -/
theorem claim1_counterexample :
    url_scheme_is_http monHttpsRss.data_source_url = true ∧
    process_monitor_data (fun _ => .resp 200 "<script>SECRET</script>pagetext")
        (fun _ => some docScriptThenText) (some monHttpsRss) =
      (some "<script>SECRET</script>pagetext", [.fetchEv "https://example.com"]) ∧
    Event.extractEv ∉ [Event.fetchEv "https://example.com"] ∧
    extract_text_from_html (fun _ => some docScriptThenText)
        (some "<script>SECRET</script>pagetext") = some "pagetext" := by
  refine ⟨by decide, rfl, by decide, rfl⟩

/-- C1 (amended): in the Fetched→Extracted step the decision to invoke the
Text Extractor is made by the monitor's `analysis_type`, not by the URL
scheme: when it is `'sentiment'` or `'keywords'` the extractor is invoked on
the fetched content (a `None` extraction making the whole run fail), and for
every other `analysis_type` the raw fetched content is passed through
unchanged — regardless of whether the URL scheme indicates HTTP(S). -/
theorem claim1_dispatch_by_analysis_type (http : String → HttpOutcome)
    (parse : String → Option NodeList) (m : Monitor) (raw : String)
    (hurl : ¬ m.data_source_url = "")
    (hfetch : (fetch_data_from_url http m.data_source_url).1 = some raw) :
    (m.analysis_type ∈ (["sentiment", "keywords"] : List String) →
       process_monitor_data http parse (some m) =
         (extract_text_from_html parse (some raw),
          [.fetchEv m.data_source_url, .extractEv])) ∧
    (m.analysis_type ∉ (["sentiment", "keywords"] : List String) →
       process_monitor_data http parse (some m) =
         (some raw, [.fetchEv m.data_source_url])) :=
  ⟨fun htype => process_monitor_data_extracts http parse m raw hurl htype hfetch,
   fun htype => process_monitor_data_passthrough http parse m raw hurl htype hfetch⟩

/-- C1 amended witness: the concrete non-HTTP-looking dispatch — the `rss`
monitor over HTTPS gets the raw content passed through. -/
theorem claim1_dispatch_by_analysis_type_witness :
    process_monitor_data (fun _ => .resp 200 "rawbody") (fun _ => none)
        (some monHttpsRss) = (some "rawbody", [.fetchEv "https://example.com"]) :=
  (claim1_dispatch_by_analysis_type (fun _ => .resp 200 "rawbody") (fun _ => none)
    monHttpsRss "rawbody" (by decide) rfl).2 (by decide)

/-- Monitor with analysis type `'rss'`, found under id 1, for the C2
counterexample run. -/
def monRssFeed : Monitor :=
  { id := 1, user_id := 7, name := "Feed watch", data_source_url := "https://feed.example",
    analysis_type := "rss", creation_date := 0, last_run := none, is_active := true }

/-- C2 counterexample: a trigger for a monitor of unknown analysis type whose
fetch succeeds does not produce an empty result mapping — it answers 200 with
the nonempty raw fetched content as the payload. -/
theorem claim2_counterexample :
    trigger_monitor_processing (some "k") (fun _ => .resp 200 "raw stuff")
        (fun _ => none) [monRssFeed]
        { api_key_header := some "k", body := some { monitor_id := some 1 } } =
      (.processedOk 1 "raw stuff",
       [.parseBodyEv, .lookupMonitorEv 1, .fetchEv "https://feed.example"]) ∧
    "raw stuff" ≠ "" ∧
    (TriggerResponse.processedOk 1 "raw stuff").isError = false := by
  refine ⟨rfl, by decide, rfl⟩

/-- C2 (amended): for every monitor whose `analysis_type` is neither
`'sentiment'` nor `'keywords'`, a trigger whose fetch succeeds answers 200
with the raw fetched content passed through unchanged as the processed
payload — no analysis is performed, no error is reported, and no empty
result mapping is produced. -/
theorem claim2_unknown_type_returns_raw (expected_api_key : Option String)
    (key : String) (http : String → HttpOutcome) (parse : String → Option NodeList)
    (database : List Monitor) (m : Monitor) (mid : Nat) (raw : String)
    (hkey1 : ¬ key = "") (hkey2 : some key = expected_api_key)
    (hfind : database.find? (fun x => x.id == mid) = some m)
    (htype : m.analysis_type ∉ (["sentiment", "keywords"] : List String))
    (hurl : ¬ m.data_source_url = "")
    (hfetch : (fetch_data_from_url http m.data_source_url).1 = some raw) :
    trigger_monitor_processing expected_api_key http parse database
        { api_key_header := some key, body := some { monitor_id := some mid } } =
      (.processedOk mid raw,
       [.parseBodyEv, .lookupMonitorEv mid, .fetchEv m.data_source_url]) ∧
    (TriggerResponse.processedOk mid raw).statusCode = 200 := by
  refine ⟨?_, rfl⟩
  rw [trigger_monitor_processing_auth_ok expected_api_key key http parse database
      mid m hkey1 hkey2 hfind,
    process_monitor_data_passthrough http parse m raw hurl htype hfetch]
  rfl

/-- C2 amended witness: the concrete run of the counterexample scenario,
derived from the amended theorem. -/
theorem claim2_unknown_type_returns_raw_witness :
    trigger_monitor_processing (some "k") (fun _ => .resp 200 "payload")
        (fun _ => none) [monRssFeed]
        { api_key_header := some "k", body := some { monitor_id := some 1 } } =
      (.processedOk 1 "payload",
       [.parseBodyEv, .lookupMonitorEv 1, .fetchEv "https://feed.example"]) :=
  (claim2_unknown_type_returns_raw (some "k") "k" (fun _ => .resp 200 "payload")
    (fun _ => none) [monRssFeed] monRssFeed 1 "payload"
    (by decide) rfl rfl (by decide) (by decide) rfl).1

/-- Parse tree of `"<html><script>boring</script></html>"`: the whole page is
one script block, so extraction leaves the empty string.  Used against C3. -/
def docOnlyScript : NodeList :=
  .cons (.elem "html" (.cons (.elem "script" (.cons (.text "boring") .nil)) .nil)) .nil

/-- Sentiment monitor over a page that is all script, for the C3
counterexample run. -/
def monSentiment : Monitor :=
  { id := 1, user_id := 7, name := "Mood watch", data_source_url := "https://example.com",
    analysis_type := "sentiment", creation_date := 0, last_run := none,
    is_active := true }

/-- C3 counterexample: the extractor returns the empty *string* (not `None`)
for a page whose only content is a script block; the processor accepts it and
the trigger answers 200 with an empty payload — there is no `NoData` failure
and the caller is not told that processing failed. -/
theorem claim3_counterexample :
    extract_text_from_html (fun _ => some docOnlyScript)
        (some "<html><script>boring</script></html>") = some "" ∧
    trigger_monitor_processing (some "k")
        (fun _ => .resp 200 "<html><script>boring</script></html>")
        (fun _ => some docOnlyScript) [monSentiment]
        { api_key_header := some "k", body := some { monitor_id := some 1 } } =
      (.processedOk 1 "",
       [.parseBodyEv, .lookupMonitorEv 1, .fetchEv "https://example.com",
        .extractEv]) ∧
    (TriggerResponse.processedOk 1 "").statusCode = 200 ∧
    (TriggerResponse.processedOk 1 "").isError = false := by
  refine ⟨rfl, rfl, rfl, rfl⟩

/-- C3 (amended): an extracted (or passed-through) content equal to the empty
string is *not* treated as a failure: the processor returns it and the
trigger endpoint reports success (HTTP 200) with the empty string as the
processed payload.  Only a missing config, a failed fetch, or a `None`
extraction produce the failure report. -/
theorem claim3_empty_content_is_success (expected_api_key : Option String)
    (key : String) (http : String → HttpOutcome) (parse : String → Option NodeList)
    (database : List Monitor) (m : Monitor) (mid : Nat)
    (hkey1 : ¬ key = "") (hkey2 : some key = expected_api_key)
    (hfind : database.find? (fun x => x.id == mid) = some m)
    (hproc : (process_monitor_data http parse (some m)).1 = some "") :
    trigger_monitor_processing expected_api_key http parse database
        { api_key_header := some key, body := some { monitor_id := some mid } } =
      (.processedOk mid "",
       [.parseBodyEv, .lookupMonitorEv mid] ++
         (process_monitor_data http parse (some m)).2) ∧
    (TriggerResponse.processedOk mid "").statusCode = 200 ∧
    (TriggerResponse.processedOk mid "").isError = false := by
  refine ⟨?_, rfl, rfl⟩
  rw [trigger_monitor_processing_auth_ok expected_api_key key http parse database
      mid m hkey1 hkey2 hfind]
  have hpair : process_monitor_data http parse (some m) =
      (some "", (process_monitor_data http parse (some m)).2) := by
    rw [← hproc]
  rw [hpair]

/-- C3 amended witness: the concrete all-script run answers 200 with the
empty payload. -/
theorem claim3_empty_content_is_success_witness :
    trigger_monitor_processing (some "k")
        (fun _ => .resp 200 "<html><script>boring</script></html>")
        (fun _ => some docOnlyScript) [monSentiment]
        { api_key_header := some "k", body := some { monitor_id := some 1 } } =
      (.processedOk 1 "",
       [.parseBodyEv, .lookupMonitorEv 1, .fetchEv "https://example.com",
        .extractEv]) :=
  (claim3_empty_content_is_success (some "k") "k"
    (fun _ => .resp 200 "<html><script>boring</script></html>")
    (fun _ => some docOnlyScript) [monSentiment] monSentiment 1
    (by decide) rfl rfl rfl).1

/-- C8: the Text Extractor's output never contains the content of script or
style blocks — formally, the output is invariant under replacing the content
of every script/style element by anything whatsoever (in particular by
nothing), both at the parse-tree level and through
`extract_text_from_html` for any two parser oracles that differ only inside
script/style blocks; and for empty/absent input, or when parsing raises
(`parse` returns `none`), the extractor returns `None`. -/
theorem claim8_extractor_strips_script_style :
    (∀ (repl : NodeList) (d : NodeList),
       removeTagsList scriptStyleTags (replaceTagContentList scriptStyleTags repl d) =
         removeTagsList scriptStyleTags d) ∧
    (∀ (parseA parseB : String → Option NodeList) (repl : NodeList) (h : String),
       parseB h = (parseA h).map (replaceTagContentList scriptStyleTags repl) →
       extract_text_from_html parseB (some h) = extract_text_from_html parseA (some h)) ∧
    (∀ parse, extract_text_from_html parse none = none) ∧
    (∀ parse, extract_text_from_html parse (some "") = none) ∧
    (∀ (parse : String → Option NodeList) (s : String), parse s = none →
       extract_text_from_html parse (some s) = none) := by
  refine ⟨fun repl d => removeTagsList_replaceTagContentList scriptStyleTags repl d,
    ?_, fun parse => rfl, fun parse => rfl, ?_⟩
  · intro parseA parseB repl h hrel
    by_cases hempty : h = ""
    · simp [extract_text_from_html, hempty]
    · cases hpa : parseA h with
      | none =>
        rw [hpa] at hrel
        simp at hrel
        simp [extract_text_from_html, hempty, hpa, hrel]
      | some d =>
        rw [hpa] at hrel
        simp at hrel
        simp [extract_text_from_html, hempty, hpa, hrel,
          removeTagsList_replaceTagContentList scriptStyleTags repl d]
  · intro parse s hs
    by_cases hempty : s = ""
    · simp [extract_text_from_html, hempty]
    · simp [extract_text_from_html, hempty, hs]

/-- Parse tree with a style block and visible text, for the C8 witness. -/
def docStyleAndText : NodeList :=
  .cons (.elem "style" (.cons (.text "css rules") .nil)) (.cons (.text "visible") .nil)

/-- Parser oracle returning `docStyleAndText`, for the C8 witness. -/
def parseStyled : String → Option NodeList := fun _ => some docStyleAndText

/-- The same oracle with every script/style block emptied, for the C8
witness. -/
def parseStyledErased : String → Option NodeList :=
  fun s => (parseStyled s).map (replaceTagContentList scriptStyleTags .nil)

/-- C8 witness: erasing the style block's content does not change the
extractor's output on a concrete page. -/
theorem claim8_extractor_strips_script_style_witness :
    extract_text_from_html parseStyledErased (some "<page>") =
      extract_text_from_html parseStyled (some "<page>") :=
  claim8_extractor_strips_script_style.2.1 parseStyled parseStyledErased .nil
    "<page>" rfl

/-- Every request handler preserves "no monitor has a `last_run`": the single
per-request store transformation never writes that field. -/
theorem manage_single_monitor_no_last_run (database : List Monitor)
    (uid mid : Nat) (method : Method)
    (h : ∀ m ∈ database, m.last_run = none) :
    ∀ m ∈ (manage_single_monitor database uid mid method).1, m.last_run = none := by
  cases hf : database.find? (fun m => m.id == mid && m.user_id == uid) with
  | none => simpa [manage_single_monitor, hf] using h
  | some monitor =>
    have hmon : monitor ∈ database := List.mem_of_find?_eq_some hf
    have hmonlr : monitor.last_run = none := h monitor hmon
    cases method with
    | get => simpa [manage_single_monitor, hf] using h
    | delete =>
      intro m hm
      simp only [manage_single_monitor, hf] at hm
      exact h m (List.mem_of_mem_filter hm)
    | put d =>
      cases d with
      | none => simpa [manage_single_monitor, hf] using h
      | some data =>
        cases hap : apply_put_fields monitor data with
        | invalidIsActive s => simpa [manage_single_monitor, hf, hap] using h
        | updated m2 =>
          intro m hm
          simp only [manage_single_monitor, hf, hap] at hm
          rcases List.mem_map.mp hm with ⟨x, hx, hfx⟩
          by_cases hc : (x.id == mid && x.user_id == uid) = true
          · rw [if_pos hc] at hfx
            rw [← hfx, apply_put_fields_last_run monitor data m2 hap]
            exact hmonlr
          · rw [if_neg hc] at hfx
            rw [← hfx]
            exact h x hx

/-- Creation preserves "no monitor has a `last_run`": the fresh row is
inserted with `last_run = NULL`. -/
theorem create_monitor_no_last_run (database : List Monitor)
    (uid nid now : Nat) (data : Option CreateData)
    (h : ∀ m ∈ database, m.last_run = none) :
    ∀ m ∈ (create_monitor database uid nid now data).1, m.last_run = none := by
  cases data with
  | none => exact h
  | some d =>
    by_cases h1 : d.name = "" ∨ d.data_source_url = "" ∨ d.analysis_type = ""
    · simpa [create_monitor, h1] using h
    · by_cases h2 : database.any (fun m => m.id == nid)
      · simpa [create_monitor, h1, h2] using h
      · intro m hm
        simp only [create_monitor, if_neg h1, h2] at hm
        rcases List.mem_append.mp hm with hm1 | hm1
        · exact h m hm1
        · rcases List.mem_singleton.mp hm1 with rfl
          rfl

/-- One request of any kind preserves "no monitor has a `last_run`". -/
theorem applyOp_no_last_run (http : String → HttpOutcome)
    (parse : String → Option NodeList) (database : List Monitor) (op : Op)
    (h : ∀ m ∈ database, m.last_run = none) :
    ∀ m ∈ applyOp http parse database op, m.last_run = none := by
  cases op with
  | create uid nid now d => exact create_monitor_no_last_run database uid nid now d h
  | readSingle uid mid => exact manage_single_monitor_no_last_run database uid mid .get h
  | updateSingle uid mid d =>
    exact manage_single_monitor_no_last_run database uid mid (.put d) h
  | deleteSingle uid mid =>
    exact manage_single_monitor_no_last_run database uid mid .delete h
  | listMonitors uid => exact h
  | triggerOp key req => exact h

/-- C9: no operation in the shown code ever writes `last_run` — starting from
any store in which every monitor's `last_run` is `NULL` (as a freshly created
monitor's is), after any sequence of CRUD and trigger requests every
monitor's `last_run` is still `NULL`; moreover the trigger request maps every
store to itself, leaving all persisted monitor fields unchanged. -/
theorem claim9_last_run_never_written (http : String → HttpOutcome)
    (parse : String → Option NodeList) (database : List Monitor) (ops : List Op)
    (h0 : ∀ m ∈ database, m.last_run = none) :
    (∀ m ∈ runOps http parse database ops, m.last_run = none) ∧
    (∀ (db2 : List Monitor) (key : Option String) (req : TriggerRequest),
       applyOp http parse db2 (.triggerOp key req) = db2) := by
  refine ⟨?_, fun db2 key req => rfl⟩
  induction ops generalizing database with
  | nil => simpa [runOps] using h0
  | cons op rest ih =>
    simp only [runOps, List.foldl_cons]
    exact ih (applyOp http parse database op)
      (applyOp_no_last_run http parse database op h0)

/-- A concrete request sequence — create a monitor, read it, rename it,
trigger it — for the C9 witness. -/
def opsCreateReadRenameTrigger : List Op :=
  [.create 1 1 5 (some { name := "n", data_source_url := "https://a.example",
                         analysis_type := "sentiment" }),
   .readSingle 1 1,
   .updateSingle 1 1 (some { name := some "n2", data_source_url := none,
                             analysis_type := none, is_active := none }),
   .triggerOp (some "k") { api_key_header := some "k",
                           body := some { monitor_id := some 1 } }]

/-- C9 witness: the concrete sequence leaves every `last_run` equal to
`NULL`. -/
theorem claim9_last_run_never_written_witness :
    (runOps (fun _ => .resp 200 "body") (fun _ => none) []
        opsCreateReadRenameTrigger).all (fun m => m.last_run == none) = true := by
  rw [List.all_eq_true]
  intro x hx
  have h := (claim9_last_run_never_written (fun _ => .resp 200 "body") (fun _ => none)
    [] opsCreateReadRenameTrigger (fun m hm => absurd hm (List.not_mem_nil m))).1 x hx
  simp [h]

end SDMN
